import Mathlib

/-!
A shallow embedding of the creative-brief resolver of
src/elevenlabs_agentos.py: the pure brief-resolution portion of the
POST /api/vibe/generate-music handler (the module-level tables and helper
functions at lines 150-363 and the request-to-brief logic at lines
371-489), together with proofs about it.

Python floats are modelled as exact rationals, Python ints as Int,
Optional fields as Option, and pydantic models as structures.  Python
truthiness tests on optional strings and lists (which treat "" and []
like None) are made explicit through truthyStr and truthyList.

The resolver in the source mutates state in one place: on the fresh
path, the two conditional list appends at lines 426-429 act on the very
list object held by promptMetadata.instrumentationHints when that field
is a non-empty list (Python aliasing; no copy is taken, unlike the
existing-brief path, which copies first).  The embedding makes that
in-place mutation explicit: generate_vibe_music returns the resolved
brief together with the post-call state of the request's inputs.
-/

namespace Vibe

/-- RoomStatsAPI pydantic model (lines 196-216 of the source). -/
structure RoomStatsAPI where
  avgBrightness : ℚ
  colorTempK : ℚ
  motionLevel : ℚ
  faces : Option Int := none
  smiles : Option Int := none
  motionZones : List ℚ := []
  crowdDensity : ℚ
  styleIndicator : String
  dominantColors : List String := []
  colorVariance : ℚ
  lightingPattern : String
  audioVolume : ℚ
  audioEnergy : ℚ
  noiseLevel : ℚ
  speechProbability : ℚ
  pitch : ℚ
  spectralCentroid : ℚ
deriving DecidableEq

/-- StatsWindowAPI pydantic model (source field named end is a Lean
keyword, rendered here as end_). -/
structure StatsWindowAPI where
  start : Int
  end_ : Int
  sampleCount : Int
  averagedStats : RoomStatsAPI
  latestStats : RoomStatsAPI
deriving DecidableEq

/-- VibeContext pydantic model. -/
structure VibeContext where
  timestamp : Int
  sessionId : Option String := none
  previousVibe : Option String := none
  previousStyle : Option String := none
  styleLockExpiresAt : Option Int := none
  briefVersion : Option String := none
deriving DecidableEq

/-- TransitionMetadata pydantic model. -/
structure TransitionMetadata where
  previousStyle : Option String := none
  smoothness : Option ℚ := none
deriving DecidableEq

/-- PromptMetadata pydantic model: caller-supplied overrides, every field
optional and defaulting to None. -/
structure PromptMetadata where
  style : Option String := none
  description : Option String := none
  vibeLabel : Option String := none
  weatherSummary : Option String := none
  decisionSummary : Option String := none
  targetBpm : Option Int := none
  energy : Option ℚ := none
  warmth : Option ℚ := none
  formality : Option ℚ := none
  focus : Option ℚ := none
  acousticRatio : Option ℚ := none
  percussionIntensity : Option ℚ := none
  dynamics : Option ℚ := none
  vocalsAllowed : Option String := none
  instrumentationHints : Option (List String) := none
  moodKeywords : Option (List String) := none
  environmentSummary : Option String := none
  transition : Option TransitionMetadata := none
  briefVersion : Option String := none
deriving DecidableEq

/-- VibeDecisionAPI pydantic model. -/
structure VibeDecisionAPI where
  vibeLabel : String
  suggestedBPM : Int
  suggestedVolume : ℚ
  spokenTip : String
  action : Option String := none
deriving DecidableEq

/-- WeatherSnapshotAPI pydantic model. -/
structure WeatherSnapshotAPI where
  location : Option String := none
  description : Option String := none
  temperature : Option ℚ := none
  feelsLike : Option ℚ := none
  humidity : Option Int := none
  uvIndex : Option ℚ := none
  cloudiness : Option Int := none
  timestamp : Option Int := none
deriving DecidableEq

/-- CreativeMusicBrief pydantic model.  vocalsAllowed is Literal
[off, low, lead] in the source; it is carried here as a plain string, so
the theorems about it quantify over every conceivable input value. -/
structure CreativeMusicBrief where
  style : String
  vibeLabel : String
  targetBpm : Int
  energy : ℚ
  warmth : ℚ
  formality : ℚ
  focus : ℚ
  acousticRatio : ℚ
  percussionIntensity : ℚ
  dynamics : ℚ
  vocalsAllowed : String
  instrumentationHints : List String := []
  moodKeywords : List String := []
  environmentSummary : Option String := none
  weatherSummary : Option String := none
  description : String
  transition : Option TransitionMetadata := none
deriving DecidableEq

/-- VibeRequest pydantic model: the full request body of the endpoint. -/
structure VibeRequest where
  stats : RoomStatsAPI
  statsWindow : Option StatsWindowAPI := none
  context : Option VibeContext := none
  promptMetadata : Option PromptMetadata := none
  decision : Option VibeDecisionAPI := none
  weather : Option WeatherSnapshotAPI := none
  brief : Option CreativeMusicBrief := none
deriving DecidableEq

/-- Python truthiness of an optional string: None and "" are falsy.
Returns the string exactly when it is present and non-empty. -/
def truthyStr : Option String → Option String
  | none => none
  | some s => if s = "" then none else some s

/-- Python truthiness of an optional string list: None and [] are falsy.
Returns the list exactly when it is present and non-empty. -/
def truthyList : Option (List String) → Option (List String)
  | none => none
  | some l => if l = [] then none else some l

/-- Python falsiness of an optional string (used by the not-tests of the
existing-brief branch): true on None and on "". -/
def falsyOptStr : Option String → Bool
  | none => true
  | some s => s == ""

/-- Python int() on a float: truncation toward zero. -/
def pyInt (q : ℚ) : Int :=
  if q < 0 then -(⌊-q⌋) else ⌊q⌋

/-- clamp from line 331: max(min_value, min(max_value, value)). -/
def clamp (value min_value max_value : ℚ) : ℚ :=
  max min_value (min max_value value)

/-- STYLE_INSTRUMENTS dict (lines 150-160), as a lookup. -/
def STYLE_INSTRUMENTS (style : String) : Option (List String) :=
  if style = "upbeat" then
    some ["electric guitar", "synth bass", "four-on-the-floor kick", "claps"]
  else if style = "electronic" then
    some ["analog synth pads", "side-chained bass", "crisp hi-hats"]
  else if style = "dynamic" then
    some ["driving drums", "pulsing bass", "stabs"]
  else if style = "ambient" then
    some ["soft pads", "tape-textured keys", "gentle swells"]
  else if style = "cozy" then
    some ["warm piano", "upright bass", "brush kit"]
  else if style = "acoustic" then
    some ["fingerstyle guitar", "hand percussion", "muted piano"]
  else if style = "jazz" then
    some ["upright bass", "shuffle drums", "muted trumpet"]
  else if style = "classical" then
    some ["chamber strings", "piano arpeggios", "woodwinds"]
  else if style = "chill" then
    some ["lo-fi keys", "vinyl texture", "soft snaps"]
  else none

/-- STYLE_BY_INDICATOR dict (lines 174-180), as a lookup. -/
def STYLE_BY_INDICATOR (indicator : String) : Option String :=
  if indicator = "party" then some "upbeat"
  else if indicator = "formal" then some "classical"
  else if indicator = "professional" then some "ambient"
  else if indicator = "casual" then some "acoustic"
  else if indicator = "mixed" then some "chill"
  else none

/-- STYLE_BY_DECISION dict (lines 182-187), as a lookup. -/
def STYLE_BY_DECISION (label : String) : Option String :=
  if label = "party" then some "upbeat"
  else if label = "chill" then some "chill"
  else if label = "focused" then some "ambient"
  else if label = "bored" then some "dynamic"
  else none

/-- summarise_weather (lines 335-347). -/
def summarise_weather (weather : Option WeatherSnapshotAPI) : Option String :=
  match weather with
  | none => none
  | some w =>
    let parts : List String :=
      (match w.location with
        | some l => if l = "" then [] else [l]
        | none => []) ++
      (match w.description with
        | some d => if d = "" then [] else [d.toLower]
        | none => []) ++
      (match w.temperature with
        | some t => [toString (pyInt t) ++ "°C"]
        | none => []) ++
      (match w.humidity with
        | some h => [toString h ++ "% humidity"]
        | none => [])
    if parts = [] then none else some (String.intercalate ", " parts)

/-- summarise_environment (lines 350-359). -/
def summarise_environment (stats : RoomStatsAPI) : String :=
  let parts : List String :=
    ["motion " ++ toString (pyInt (clamp stats.motionLevel 0 1 * 100)) ++ "%",
     "crowd " ++ toString (pyInt (clamp stats.crowdDensity 0 1 * 100)) ++ "%",
     "lighting " ++ stats.lightingPattern]
  let parts := if stats.dominantColors = [] then parts
    else parts ++ ["colors " ++ String.intercalate ", " (stats.dominantColors.take 3)]
  let parts := parts ++
    ["audio energy " ++ toString (pyInt (clamp stats.audioEnergy 0 1 * 100)) ++ "%"]
  String.intercalate " | " parts

/-- instrumentation_for_style (lines 362-363). -/
def instrumentation_for_style (style : String) : List String :=
  (STYLE_INSTRUMENTS style).getD ["elements inspired by " ++ style]

/-- axis_value (lines 379-380): clamp a present override into [0,1], else
use the computed default. -/
def axis_value (candidate : Option ℚ) (default : ℚ) : ℚ :=
  match candidate with
  | some c => clamp c 0 1
  | none => default

/-- dict.fromkeys dedup, keeping the first occurrence of each string. -/
def dedupFirstAux : List String → List String → List String
  | _, [] => []
  | seen, x :: xs =>
    if x ∈ seen then dedupFirstAux seen xs
    else x :: dedupFirstAux (x :: seen) xs

/-- list(dict.fromkeys(l)): duplicates removed, first occurrences kept in
order (lines 430 and 477). -/
def dedupFirst (l : List String) : List String :=
  dedupFirstAux [] l

/-- The guarded append pattern "if tag not in l: l.append(tag)" of lines
426-429, as a pure function on the list value. -/
def add_tag (tag : String) (l : List String) : List String :=
  if tag ∈ l then l else l ++ [tag]

/-- base_style as first assigned on the fresh path (lines 384-389):
promptMetadata.style if truthy, else the decision table when the
decision's vibeLabel is a key of it, else the indicator table defaulting
to chill. -/
def base_style_pre (stats : RoomStatsAPI) (pm : Option PromptMetadata)
    (decision : Option VibeDecisionAPI) : String :=
  match truthyStr (pm.bind fun p => p.style) with
  | some s => s
  | none =>
    match decision with
    | some d =>
      match STYLE_BY_DECISION d.vibeLabel with
      | some s => s
      | none => (STYLE_BY_INDICATOR stats.styleIndicator).getD "chill"
    | none => (STYLE_BY_INDICATOR stats.styleIndicator).getD "chill"

/-- base_style after the reassignment at lines 391-392: the
strobe/dynamic-lighting override away from upbeat. -/
def base_style (stats : RoomStatsAPI) (pm : Option PromptMetadata)
    (decision : Option VibeDecisionAPI) : String :=
  if (stats.lightingPattern = "strobe" ∨ stats.lightingPattern = "dynamic")
      ∧ base_style_pre stats pm decision = "upbeat"
  then "electronic" else base_style_pre stats pm decision

/-- vibe_label of the fresh path (lines 394-397). -/
def vibe_label (pm : Option PromptMetadata)
    (decision : Option VibeDecisionAPI) : String :=
  match truthyStr (pm.bind fun p => p.vibeLabel) with
  | some v => v
  | none =>
    match decision with
    | some d => d.vibeLabel
    | none => "focused"

/-- target_bpm_seed of the fresh path (lines 399-402): the targetBpm
override is tested with "is not None", not truthiness. -/
def target_bpm_seed (stats : RoomStatsAPI) (pm : Option PromptMetadata)
    (decision : Option VibeDecisionAPI) : Int :=
  match pm.bind fun p => p.targetBpm with
  | some b => b
  | none =>
    match decision with
    | some d => d.suggestedBPM
    | none => pyInt (78 + clamp stats.motionLevel 0 1 * 60)

/-- energy_default (line 404). -/
def energy_default (stats : RoomStatsAPI) : ℚ :=
  clamp (stats.motionLevel * 0.6 + stats.audioEnergy * 0.4) 0 1

/-- warmth_default (line 405). -/
def warmth_default (stats : RoomStatsAPI) : ℚ :=
  clamp (0.75 - ((stats.colorTempK - 1800) / (8500 - 1800)) * 0.6
    + (if stats.avgBrightness < 0.35 then 0.1 else 0)) 0 1

/-- formality_base (line 406). -/
def formality_base (stats : RoomStatsAPI) : ℚ :=
  if stats.styleIndicator = "formal" ∨ stats.styleIndicator = "professional"
  then 0.85
  else if stats.styleIndicator = "casual" then 0.35 else 0.5

/-- formality_default (line 407). -/
def formality_default (stats : RoomStatsAPI) (vl : String) : ℚ :=
  clamp (formality_base stats + (if vl = "focused" then 0.1 else 0)
    - (if stats.crowdDensity > 0.7 then 0.1 else 0)) 0 1

/-- focus_default (line 408). -/
def focus_default (stats : RoomStatsAPI) (vl : String) : ℚ :=
  clamp (0.6 - clamp stats.noiseLevel 0 1 * 0.35
    + (if stats.speechProbability > 0.55 then 0.1 else 0)
    + (if vl = "focused" then 0.15 else 0)) 0 1

/-- acoustic_bias (lines 409-414). -/
def acoustic_bias (stats : RoomStatsAPI) : ℚ :=
  if stats.styleIndicator = "casual" ∨ stats.styleIndicator = "formal"
  then 0.65
  else if stats.styleIndicator = "professional" then 0.55
  else if stats.styleIndicator = "party" then 0.3
  else 0.5

/-- acoustic_ratio_default (line 415). -/
def acoustic_ratio_default (stats : RoomStatsAPI) : ℚ :=
  clamp (acoustic_bias stats + warmth_default stats * 0.2
    - clamp stats.audioEnergy 0 1 * 0.2) 0 1

/-- percussion_intensity_default (line 416). -/
def percussion_intensity_default (stats : RoomStatsAPI) (vl : String) : ℚ :=
  clamp (clamp stats.audioEnergy 0 1 * 0.5 + clamp stats.motionLevel 0 1 * 0.35
    + (if vl = "bored" then 0.2 else 0)) 0 1

/-- dynamics_default (line 417). -/
def dynamics_default (stats : RoomStatsAPI) (vl : String) : ℚ :=
  clamp (0.4 + clamp stats.motionLevel 0 1 * 0.15
    + (if stats.avgBrightness < 0.25 then -0.1 else 0)
    + (if vl = "party" then 0.1 else 0)) 0 1

/-- instrumentation_hints of the fresh path (lines 421-430): source list
is the truthy promptMetadata hints or the per-style table, then the two
guarded appends, then the dict.fromkeys dedup. -/
def instrumentation_hints (pm : Option PromptMetadata) (bs : String) :
    List String :=
  dedupFirst (add_tag "instrumental arrangement" (add_tag "no vocals"
    (match truthyList (pm.bind fun p => p.instrumentationHints) with
     | some l => l
     | none => instrumentation_for_style bs)))

/-- description default of the fresh path (line 450). -/
def description_default (bs vl : String) (bpm : Int) (env : String) : String :=
  "Compose " ++ bs ++ " music that supports a " ++ vl ++
    " vibe. Keep tempo near " ++ toString bpm ++ " BPM and respect: " ++
    env ++ "."

/-- The brief built by the fresh path (lines 382-471). -/
def fresh_brief (stats : RoomStatsAPI) (pm : Option PromptMetadata)
    (decision : Option VibeDecisionAPI)
    (weather : Option WeatherSnapshotAPI) : CreativeMusicBrief :=
  let bs := base_style stats pm decision
  let vl := vibe_label pm decision
  let bpm := target_bpm_seed stats pm decision
  let env : String :=
    match truthyStr (pm.bind fun p => p.environmentSummary) with
    | some s => s
    | none => summarise_environment stats
  { style := bs
    vibeLabel := vl
    targetBpm := bpm
    energy := axis_value (pm.bind fun p => p.energy) (energy_default stats)
    warmth := axis_value (pm.bind fun p => p.warmth) (warmth_default stats)
    formality :=
      axis_value (pm.bind fun p => p.formality) (formality_default stats vl)
    focus := axis_value (pm.bind fun p => p.focus) (focus_default stats vl)
    acousticRatio :=
      axis_value (pm.bind fun p => p.acousticRatio) (acoustic_ratio_default stats)
    percussionIntensity :=
      axis_value (pm.bind fun p => p.percussionIntensity)
        (percussion_intensity_default stats vl)
    dynamics :=
      axis_value (pm.bind fun p => p.dynamics) (dynamics_default stats vl)
    vocalsAllowed := "off"
    instrumentationHints := instrumentation_hints pm bs
    moodKeywords :=
      match truthyList (pm.bind fun p => p.moodKeywords) with
      | some l => l
      | none => [vl, bs]
    environmentSummary := some env
    weatherSummary :=
      match truthyStr (pm.bind fun p => p.weatherSummary) with
      | some s => some s
      | none => summarise_weather weather
    description :=
      match truthyStr (pm.bind fun p => p.description) with
      | some s => s
      | none => description_default bs vl bpm env
    transition := pm.bind fun p => p.transition }

/-- The brief.copy(update=...) of the existing-brief path (lines
472-489): the input brief taken as-is, hints recomputed and deduplicated,
vocals forced off, and the three summary fields filled when falsy. -/
def refine_brief (stats : RoomStatsAPI) (weather : Option WeatherSnapshotAPI)
    (brief0 : CreativeMusicBrief) : CreativeMusicBrief :=
  let instrumentation0 :=
    if brief0.instrumentationHints = []
    then instrumentation_for_style brief0.style
    else brief0.instrumentationHints
  let instrumentation :=
    dedupFirst (instrumentation0 ++ ["instrumental arrangement", "no vocals"])
  { brief0 with
    instrumentationHints := instrumentation
    vocalsAllowed := "off"
    weatherSummary :=
      if falsyOptStr brief0.weatherSummary then summarise_weather weather
      else brief0.weatherSummary
    environmentSummary :=
      if falsyOptStr brief0.environmentSummary
      then some (summarise_environment stats)
      else brief0.environmentSummary
    moodKeywords :=
      if brief0.moodKeywords = [] then [brief0.vibeLabel, brief0.style]
      else brief0.moodKeywords }

/-- Post-call state of promptMetadata: on the fresh path the guarded
appends of lines 426-429 run on the caller's own instrumentationHints
list object whenever it is present and non-empty (Python aliasing), so
the caller observes the appended tags after the call.  Every other field
is only read. -/
def prompt_metadata_after (pm : Option PromptMetadata) : Option PromptMetadata :=
  match pm with
  | none => none
  | some p =>
    match truthyList p.instrumentationHints with
    | none => some p
    | some l =>
      let l2 := add_tag "instrumental arrangement" (add_tag "no vocals" l)
      some { p with instrumentationHints := some l2 }

/-- The brief-resolution portion of generate_vibe_music (lines 371-489):
returns the resolved CreativeMusicBrief, paired with the post-call state
of the request's inputs (which differs from the input state exactly when
the fresh path appends the two tags to the caller's promptMetadata
instrumentation list in place). -/
def generate_vibe_music (request : VibeRequest) :
    CreativeMusicBrief × VibeRequest :=
  match request.brief with
  | some brief0 => (refine_brief request.stats request.weather brief0, request)
  | none =>
    (fresh_brief request.stats request.promptMetadata request.decision
      request.weather,
     { request with
        promptMetadata := prompt_metadata_after request.promptMetadata })

/-! Helper lemmas. -/

lemma clamp01_mem (v : ℚ) : 0 ≤ clamp v 0 1 ∧ clamp v 0 1 ≤ 1 := by
  unfold clamp
  exact ⟨le_max_left 0 _, max_le (by norm_num) (min_le_left 1 v)⟩

lemma axis_value_mem (c : Option ℚ) (d : ℚ) (h0 : 0 ≤ d) (h1 : d ≤ 1) :
    0 ≤ axis_value c d ∧ axis_value c d ≤ 1 := by
  cases c with
  | none => exact ⟨h0, h1⟩
  | some x => exact clamp01_mem x

lemma pyInt_bounds (q : ℚ) (h78 : 78 ≤ q) (h138 : q ≤ 138) :
    78 ≤ pyInt q ∧ pyInt q ≤ 138 := by
  have hq : ¬ q < 0 := not_lt.mpr (le_trans (by norm_num) h78)
  unfold pyInt
  rw [if_neg hq]
  constructor
  · exact Int.le_floor.mpr (by exact_mod_cast h78)
  · have h1 : ((⌊q⌋ : ℤ) : ℚ) ≤ 138 := le_trans (Int.floor_le q) h138
    exact_mod_cast h1

lemma mem_dedupFirstAux (a : String) :
    ∀ (l seen : List String), a ∈ dedupFirstAux seen l ↔ a ∈ l ∧ a ∉ seen := by
  intro l
  induction l with
  | nil =>
    intro seen
    simp [dedupFirstAux]
  | cons x xs ih =>
    intro seen
    by_cases hx : x ∈ seen
    · simp only [dedupFirstAux, if_pos hx, ih, List.mem_cons]
      constructor
      · rintro ⟨h1, h2⟩
        exact ⟨Or.inr h1, h2⟩
      · rintro ⟨h1 | h1, h2⟩
        · exact absurd (h1 ▸ hx) h2
        · exact ⟨h1, h2⟩
    · simp only [dedupFirstAux, if_neg hx, List.mem_cons, ih]
      by_cases hax : a = x
      · subst hax
        simp [hx]
      · simp only [hax, false_or]

lemma nodup_dedupFirstAux :
    ∀ (l seen : List String), (dedupFirstAux seen l).Nodup := by
  intro l
  induction l with
  | nil =>
    intro seen
    simp [dedupFirstAux]
  | cons x xs ih =>
    intro seen
    by_cases hx : x ∈ seen
    · simpa only [dedupFirstAux, if_pos hx] using ih seen
    · simp only [dedupFirstAux, if_neg hx, List.nodup_cons]
      refine ⟨fun hmem => ?_, ih (x :: seen)⟩
      rw [mem_dedupFirstAux] at hmem
      exact hmem.2 (List.mem_cons_self x seen)

lemma mem_dedupFirst (a : String) (l : List String) :
    a ∈ dedupFirst l ↔ a ∈ l := by
  unfold dedupFirst
  rw [mem_dedupFirstAux]
  simp

lemma nodup_dedupFirst (l : List String) : (dedupFirst l).Nodup :=
  nodup_dedupFirstAux l []

lemma mem_add_tag_self (tag : String) (l : List String) : tag ∈ add_tag tag l := by
  by_cases h : tag ∈ l
  · simp [add_tag, h]
  · simp [add_tag, h]

lemma mem_add_tag_of_mem (a tag : String) (l : List String) (h : a ∈ l) :
    a ∈ add_tag tag l := by
  by_cases htag : tag ∈ l
  · simp [add_tag, htag, h]
  · simp [add_tag, htag, List.mem_append]
    exact Or.inl h

lemma instrumentation_hints_spec (pm : Option PromptMetadata) (bs : String) :
    (instrumentation_hints pm bs).Nodup ∧
    "no vocals" ∈ instrumentation_hints pm bs ∧
    "instrumental arrangement" ∈ instrumentation_hints pm bs := by
  unfold instrumentation_hints
  refine ⟨nodup_dedupFirst _, ?_, ?_⟩
  · rw [mem_dedupFirst]
    exact mem_add_tag_of_mem _ _ _ (mem_add_tag_self _ _)
  · rw [mem_dedupFirst]
    exact mem_add_tag_self _ _

lemma refine_hints_spec (stats : RoomStatsAPI) (wea : Option WeatherSnapshotAPI)
    (b : CreativeMusicBrief) :
    ((refine_brief stats wea b).instrumentationHints).Nodup ∧
    "no vocals" ∈ (refine_brief stats wea b).instrumentationHints ∧
    "instrumental arrangement" ∈ (refine_brief stats wea b).instrumentationHints := by
  have hval : (refine_brief stats wea b).instrumentationHints =
      dedupFirst ((if b.instrumentationHints = []
        then instrumentation_for_style b.style
        else b.instrumentationHints) ++ ["instrumental arrangement", "no vocals"]) := rfl
  rw [hval]
  refine ⟨nodup_dedupFirst _, ?_, ?_⟩ <;>
  · rw [mem_dedupFirst]
    refine List.mem_append_right _ ?_
    simp

/-! Shared concrete sample inputs for witnesses and counterexamples. -/

/-- A RoomStats sample with all numeric readings zero. -/
def statsZero : RoomStatsAPI :=
  { avgBrightness := 0, colorTempK := 0, motionLevel := 0, crowdDensity := 0,
    styleIndicator := "mixed", colorVariance := 0, lightingPattern := "steady",
    audioVolume := 0, audioEnergy := 0, noiseLevel := 0, speechProbability := 0,
    pitch := 0, spectralCentroid := 0 }

/-- A request carrying only the mandatory stats. -/
def reqBase : VibeRequest := { stats := statsZero }

/-- A fully-formed sample brief to exercise the existing-brief path. -/
def briefBase : CreativeMusicBrief :=
  { style := "jazz", vibeLabel := "chill", targetBpm := 100, energy := 1/2,
    warmth := 1/2, formality := 1/2, focus := 1/2, acousticRatio := 1/2,
    percussionIntensity := 1/2, dynamics := 1/2, vocalsAllowed := "lead",
    instrumentationHints := ["x"], moodKeywords := ["m"],
    environmentSummary := some "env", weatherSummary := some "w",
    description := "d" }

/-! Claim C1: axis bounds. -/

lemma fresh_axes_bounds (stats : RoomStatsAPI) (pm : Option PromptMetadata)
    (dec : Option VibeDecisionAPI) (wea : Option WeatherSnapshotAPI) :
    (0 ≤ (fresh_brief stats pm dec wea).energy ∧ (fresh_brief stats pm dec wea).energy ≤ 1) ∧
    (0 ≤ (fresh_brief stats pm dec wea).warmth ∧ (fresh_brief stats pm dec wea).warmth ≤ 1) ∧
    (0 ≤ (fresh_brief stats pm dec wea).formality ∧ (fresh_brief stats pm dec wea).formality ≤ 1) ∧
    (0 ≤ (fresh_brief stats pm dec wea).focus ∧ (fresh_brief stats pm dec wea).focus ≤ 1) ∧
    (0 ≤ (fresh_brief stats pm dec wea).acousticRatio ∧ (fresh_brief stats pm dec wea).acousticRatio ≤ 1) ∧
    (0 ≤ (fresh_brief stats pm dec wea).percussionIntensity ∧ (fresh_brief stats pm dec wea).percussionIntensity ≤ 1) ∧
    (0 ≤ (fresh_brief stats pm dec wea).dynamics ∧ (fresh_brief stats pm dec wea).dynamics ≤ 1) := by
  refine ⟨?_, ?_, ?_, ?_, ?_, ?_, ?_⟩ <;>
    exact axis_value_mem _ _ (clamp01_mem _).1 (clamp01_mem _).2

/-- A sample existing brief whose energy axis lies outside the unit
interval. -/
def briefEnergy2 : CreativeMusicBrief := { briefBase with energy := 2 }

def reqC1cex : VibeRequest := { stats := statsZero, brief := some briefEnergy2 }

/-- C1 counterexample: with a supplied existing brief whose energy axis is
2, the resolved brief's energy axis is still 2, outside [0,1] — so the
claim's axis-bounds statement is false when the value originates from a
supplied existing brief. -/
theorem C1_counterexample :
    (generate_vibe_music reqC1cex).1.energy = 2 ∧ ¬ ((2 : ℚ) ≤ 1) :=
  ⟨rfl, by norm_num⟩

/-- C1 (amended): on the fresh-derivation path (no existing brief), each
of the seven numeric axes of the resolved brief lies in [0,1], including
when the value originates from a promptMetadata override; when an
existing brief is supplied its seven axis values are passed through
unchanged, so they lie in [0,1] only when the input's already did. -/
theorem C1_axis_bounds (req : VibeRequest) :
    (req.brief = none →
      (0 ≤ (generate_vibe_music req).1.energy ∧ (generate_vibe_music req).1.energy ≤ 1) ∧
      (0 ≤ (generate_vibe_music req).1.warmth ∧ (generate_vibe_music req).1.warmth ≤ 1) ∧
      (0 ≤ (generate_vibe_music req).1.formality ∧ (generate_vibe_music req).1.formality ≤ 1) ∧
      (0 ≤ (generate_vibe_music req).1.focus ∧ (generate_vibe_music req).1.focus ≤ 1) ∧
      (0 ≤ (generate_vibe_music req).1.acousticRatio ∧ (generate_vibe_music req).1.acousticRatio ≤ 1) ∧
      (0 ≤ (generate_vibe_music req).1.percussionIntensity ∧ (generate_vibe_music req).1.percussionIntensity ≤ 1) ∧
      (0 ≤ (generate_vibe_music req).1.dynamics ∧ (generate_vibe_music req).1.dynamics ≤ 1)) ∧
    (∀ b0, req.brief = some b0 →
      (generate_vibe_music req).1.energy = b0.energy ∧
      (generate_vibe_music req).1.warmth = b0.warmth ∧
      (generate_vibe_music req).1.formality = b0.formality ∧
      (generate_vibe_music req).1.focus = b0.focus ∧
      (generate_vibe_music req).1.acousticRatio = b0.acousticRatio ∧
      (generate_vibe_music req).1.percussionIntensity = b0.percussionIntensity ∧
      (generate_vibe_music req).1.dynamics = b0.dynamics) := by
  obtain ⟨stats, sw, ctx, pm, dec, wea, brief⟩ := req
  constructor
  · intro hb
    cases brief with
    | some b => exact Option.noConfusion hb
    | none => exact fresh_axes_bounds stats pm dec wea
  · intro b0 hb
    cases brief with
    | none => exact Option.noConfusion hb
    | some b =>
      have hb2 : some b = some b0 := hb
      cases Option.some.inj hb2
      exact ⟨rfl, rfl, rfl, rfl, rfl, rfl, rfl⟩

/-- C1 witness: the amended theorem applied at the concrete base request,
whose brief field is absent, giving the energy bounds there. -/
theorem C1_witness :
    0 ≤ (generate_vibe_music reqBase).1.energy ∧
      (generate_vibe_music reqBase).1.energy ≤ 1 :=
  ((C1_axis_bounds reqBase).1 rfl).1

/-! Claim C2: mutation of inputs. -/

def pmC2 : PromptMetadata := { instrumentationHints := some ["piano"] }

def reqC2 : VibeRequest := { stats := statsZero, promptMetadata := some pmC2 }

def pmC2hints : List String := ["piano", "no vocals", "instrumental arrangement"]

def pmC2after : PromptMetadata := { pmC2 with instrumentationHints := some pmC2hints }

/-- C2: the resolver mutates an input.  At a request with no existing
brief whose promptMetadata.instrumentationHints is the non-empty list
[piano], the two guarded appends run on the caller's own list object
(Python aliasing), so after the call the promptMetadata differs from the
value passed in: its hint list has become [piano, no vocals, instrumental
arrangement].  This contradicts the claim; since the existing-brief path
copies the list before extending it, the missing copy on the fresh path
is a slip in the code. -/
theorem C2_mutates_prompt_metadata :
    (generate_vibe_music reqC2).2.promptMetadata = some pmC2after ∧
      some pmC2after ≠ some pmC2 := by
  refine ⟨rfl, ?_⟩
  decide

/-! Claim C3: vocals always off. -/

/-- C3: for every request, the resolved brief's vocalsAllowed equals off,
on both the fresh path and the existing-brief path, regardless of the
existing brief's vocalsAllowed (even lead or low) and regardless of
promptMetadata.vocalsAllowed, which the resolver never reads. -/
theorem C3_vocals_always_off (req : VibeRequest) :
    (generate_vibe_music req).1.vocalsAllowed = "off" := by
  obtain ⟨stats, sw, ctx, pm, dec, wea, brief⟩ := req
  cases brief with
  | none => rfl
  | some b => rfl

/-! Claim C6: instrumentation hints deduplicated and complete. -/

/-- C6: for every request, the resolved brief's instrumentationHints list
contains no duplicate strings (exact case-sensitive comparison, first
occurrence kept by the dict.fromkeys dedup) and contains both the no
vocals and instrumental arrangement tags, on both resolution paths. -/
theorem C6_hints_nodup_and_required (req : VibeRequest) :
    ((generate_vibe_music req).1.instrumentationHints).Nodup ∧
    "no vocals" ∈ (generate_vibe_music req).1.instrumentationHints ∧
    "instrumental arrangement" ∈ (generate_vibe_music req).1.instrumentationHints := by
  obtain ⟨stats, sw, ctx, pm, dec, wea, brief⟩ := req
  cases brief with
  | none => exact instrumentation_hints_spec pm (base_style stats pm dec)
  | some b => exact refine_hints_spec stats wea b

/-! Claim C4: target BPM formula. -/

def statsC4 : RoomStatsAPI := { statsZero with motionLevel := 1/16 }

def reqC4cex : VibeRequest := { stats := statsC4 }

/-- C4 counterexample: at motionLevel 1/16 with no BPM hints, the code
computes int(78 + 3.75) = 81 by truncation, while round(81.75) is 82, so
the resolved targetBpm is not round of the formula as claimed. -/
theorem C4_counterexample :
    (generate_vibe_music reqC4cex).1.targetBpm ≠
      round ((78 : ℚ) + clamp reqC4cex.stats.motionLevel 0 1 * 60) := by
  have h : (generate_vibe_music reqC4cex).1.targetBpm =
      pyInt (78 + clamp ((1 : ℚ)/16) 0 1 * 60) := rfl
  have h2 : reqC4cex.stats.motionLevel = (1 : ℚ)/16 := rfl
  rw [h, h2]
  norm_num [pyInt, clamp, min_def, max_def, round_eq]

/-- C4 (amended): with no existing brief, no promptMetadata targetBpm and
no decision, the resolved targetBpm equals the Python int() of 78 +
clamp(motionLevel,0,1)x60 — truncation toward zero (the floor here, the
sum being nonnegative), not rounding to nearest — and lies in [78,138];
in particular motionLevel 1/2 yields 108. -/
theorem C4_bpm_truncation (req : VibeRequest) (hb : req.brief = none)
    (hpm : req.promptMetadata.bind (fun p => p.targetBpm) = none)
    (hd : req.decision = none) :
    (generate_vibe_music req).1.targetBpm =
      pyInt (78 + clamp req.stats.motionLevel 0 1 * 60) ∧
    78 ≤ (generate_vibe_music req).1.targetBpm ∧
    (generate_vibe_music req).1.targetBpm ≤ 138 := by
  obtain ⟨stats, sw, ctx, pm, dec, wea, brief⟩ := req
  cases brief with
  | some b => exact Option.noConfusion hb
  | none =>
    cases dec with
    | some d => exact Option.noConfusion hd
    | none =>
      have hpm2 : Option.bind pm (fun p => p.targetBpm) = none := hpm
      have hseed : target_bpm_seed stats pm none
          = pyInt (78 + clamp stats.motionLevel 0 1 * 60) := by
        unfold target_bpm_seed
        rw [hpm2]
      have hrange : 78 ≤ 78 + clamp stats.motionLevel 0 1 * 60 ∧
          78 + clamp stats.motionLevel 0 1 * 60 ≤ 138 := by
        have hc := clamp01_mem stats.motionLevel
        constructor
        · nlinarith [hc.1]
        · nlinarith [hc.2]
      have hpb := pyInt_bounds _ hrange.1 hrange.2
      have hgb2 : (generate_vibe_music ⟨stats, sw, ctx, pm, none, wea, none⟩).1.targetBpm
          = pyInt (78 + clamp stats.motionLevel 0 1 * 60) := hseed
      refine ⟨hgb2, ?_, ?_⟩
      · rw [hgb2]
        exact hpb.1
      · rw [hgb2]
        exact hpb.2

def statsC4w : RoomStatsAPI := { statsZero with motionLevel := 1/2 }

def reqC4w : VibeRequest := { stats := statsC4w }

/-- C4 witness: the amended theorem applied at motionLevel 1/2 gives
targetBpm 108. -/
theorem C4_witness : (generate_vibe_music reqC4w).1.targetBpm = 108 := by
  have h := (C4_bpm_truncation reqC4w rfl rfl rfl).1
  rw [h]
  have h2 : reqC4w.stats.motionLevel = (1 : ℚ)/2 := rfl
  rw [h2]
  norm_num [pyInt, clamp, min_def, max_def]

/-! Claim C5: energy formula. -/

def statsC5 : RoomStatsAPI := { statsZero with motionLevel := 2 }

def reqC5cex : VibeRequest := { stats := statsC5 }

/-- C5 counterexample: at motionLevel 2 and audioEnergy 0 with no
overrides, the claim's formula with per-input clamping gives 1x0.6 +
0x0.4 = 0.6, but the code clamps only the combined sum, giving
clamp(1.2) = 1: the resolved energy differs from the claimed formula. -/
theorem C5_counterexample :
    (generate_vibe_music reqC5cex).1.energy ≠
      clamp reqC5cex.stats.motionLevel 0 1 * 0.6 +
        clamp reqC5cex.stats.audioEnergy 0 1 * 0.4 := by
  have h : (generate_vibe_music reqC5cex).1.energy =
      clamp ((2 : ℚ) * 0.6 + 0 * 0.4) 0 1 := rfl
  have h1 : reqC5cex.stats.motionLevel = (2 : ℚ) := rfl
  have h2 : reqC5cex.stats.audioEnergy = (0 : ℚ) := rfl
  rw [h, h1, h2]
  norm_num [clamp, min_def, max_def]

/-- C5 (amended): with no existing brief and no promptMetadata energy
override, the resolved energy equals clamp(motionLevelx0.6 +
audioEnergyx0.4, 0, 1): only the combined sum is clamped, the two source
values are not individually clamped first (unlike the percussion and
focus formulas), so motionLevel 2 with audioEnergy 0 yields 1, not 0.6. -/
theorem C5_energy_formula (req : VibeRequest) (hb : req.brief = none)
    (he : req.promptMetadata.bind (fun p => p.energy) = none) :
    (generate_vibe_music req).1.energy =
      clamp (req.stats.motionLevel * 0.6 + req.stats.audioEnergy * 0.4) 0 1 := by
  obtain ⟨stats, sw, ctx, pm, dec, wea, brief⟩ := req
  cases brief with
  | some b => exact Option.noConfusion hb
  | none =>
    have he2 : Option.bind pm (fun p => p.energy) = none := he
    have h : (generate_vibe_music ⟨stats, sw, ctx, pm, dec, wea, none⟩).1.energy
        = axis_value (Option.bind pm fun p => p.energy) (energy_default stats) := rfl
    rw [h, he2]
    rfl

/-- C5 witness: the amended theorem applied at motionLevel 2 and
audioEnergy 0: the resolved energy evaluates to 1. -/
theorem C5_witness : (generate_vibe_music reqC5cex).1.energy = 1 := by
  rw [C5_energy_formula reqC5cex rfl rfl]
  have h1 : reqC5cex.stats.motionLevel = (2 : ℚ) := rfl
  have h2 : reqC5cex.stats.audioEnergy = (0 : ℚ) := rfl
  rw [h1, h2]
  norm_num [clamp, min_def, max_def]

/-! Claim C7: strobe override of the indicator-derived style. -/

def statsParty : RoomStatsAPI :=
  { statsZero with styleIndicator := "party", lightingPattern := "strobe" }

def decisionChill : VibeDecisionAPI :=
  { vibeLabel := "chill", suggestedBPM := 100, suggestedVolume := 1/2, spokenTip := "" }

def reqC7cex : VibeRequest := { stats := statsParty, decision := some decisionChill }

/-- C7 counterexample: styleIndicator party and lightingPattern strobe,
but with a supplied decision whose vibeLabel is chill: the decision table
wins before the indicator is consulted, so the resolved style is chill,
not electronic — the claim fails as stated. -/
theorem C7_counterexample :
    (generate_vibe_music reqC7cex).1.style = "chill" ∧
      (generate_vibe_music reqC7cex).1.style ≠ "electronic" :=
  ⟨rfl, by decide⟩

/-- C7 (amended): with no existing brief, no truthy promptMetadata style,
styleIndicator party and lightingPattern strobe or dynamic, the resolved
style is electronic rather than upbeat — provided any supplied decision's
vibeLabel is not chill, focused or bored (a decision mapping the style
away from upbeat preempts the indicator and escapes the override). -/
theorem C7_strobe_override (req : VibeRequest) (hb : req.brief = none)
    (hs : truthyStr (req.promptMetadata.bind fun p => p.style) = none)
    (hd : ∀ d, req.decision = some d →
      d.vibeLabel ≠ "chill" ∧ d.vibeLabel ≠ "focused" ∧ d.vibeLabel ≠ "bored")
    (hi : req.stats.styleIndicator = "party")
    (hl : req.stats.lightingPattern = "strobe" ∨ req.stats.lightingPattern = "dynamic") :
    (generate_vibe_music req).1.style = "electronic" := by
  obtain ⟨stats, sw, ctx, pm, dec, wea, brief⟩ := req
  cases brief with
  | some b => exact Option.noConfusion hb
  | none =>
    have hs2 : truthyStr (Option.bind pm fun p => p.style) = none := hs
    have hi2 : stats.styleIndicator = "party" := hi
    have hl2 : stats.lightingPattern = "strobe" ∨ stats.lightingPattern = "dynamic" := hl
    have hpre : base_style_pre stats pm dec = "upbeat" := by
      unfold base_style_pre
      rw [hs2, hi2]
      cases dec with
      | none => rfl
      | some d =>
        obtain ⟨h1, h2, h3⟩ := hd d rfl
        dsimp only
        by_cases hp : d.vibeLabel = "party"
        · rw [hp]
          rfl
        · unfold STYLE_BY_DECISION
          rw [if_neg hp, if_neg h1, if_neg h2, if_neg h3]
          rfl
    have hgoal : (generate_vibe_music ⟨stats, sw, ctx, pm, dec, wea, none⟩).1.style
        = base_style stats pm dec := rfl
    rw [hgoal]
    unfold base_style
    rw [hpre, if_pos ⟨hl2, rfl⟩]

def reqC7w : VibeRequest := { stats := statsParty }

/-- C7 witness: the amended theorem applied with no decision at all:
styleIndicator party plus strobe lighting resolves to electronic. -/
theorem C7_witness : (generate_vibe_music reqC7w).1.style = "electronic" :=
  C7_strobe_override reqC7w rfl rfl (fun _ hd => nomatch hd) rfl (Or.inl rfl)

/-! Claim C8: refinement path and present summary fields. -/

def briefEmptyWeather : CreativeMusicBrief := { briefBase with weatherSummary := some "" }

def reqC8cex : VibeRequest := { stats := statsZero, brief := some briefEmptyWeather }

/-- C8 counterexample: an existing brief carrying the present (but empty)
weatherSummary value of an empty string is overwritten: the code tests
the field for Python truthiness, not presence, so the refinement path
replaces this present value (here with None, no weather being given). -/
theorem C8_counterexample :
    briefEmptyWeather.weatherSummary = some "" ∧
      (generate_vibe_music reqC8cex).1.weatherSummary = none :=
  ⟨rfl, rfl⟩

lemma falsyOptStr_false (s : String) (h : s ≠ "") :
    falsyOptStr (some s) = false := by
  simp [falsyOptStr, h]

/-- C8 (amended): on the refinement path the resolver fills
weatherSummary, environmentSummary and moodKeywords only when the input
brief's value is falsy (absent, empty string, or empty list): any
non-empty present value — such as environmentSummary custom — is
preserved unchanged; a present empty value counts as absent and is
overwritten. -/
theorem C8_refinement_preserves (req : VibeRequest) (b0 : CreativeMusicBrief)
    (hb : req.brief = some b0) :
    (∀ s, b0.environmentSummary = some s → s ≠ "" →
      (generate_vibe_music req).1.environmentSummary = some s) ∧
    (∀ s, b0.weatherSummary = some s → s ≠ "" →
      (generate_vibe_music req).1.weatherSummary = some s) ∧
    (b0.moodKeywords ≠ [] →
      (generate_vibe_music req).1.moodKeywords = b0.moodKeywords) := by
  obtain ⟨stats, sw, ctx, pm, dec, wea, brief⟩ := req
  cases brief with
  | none => exact Option.noConfusion hb
  | some b =>
    have hb2 : some b = some b0 := hb
    have hbeq : b = b0 := Option.some.inj hb2
    subst hbeq
    refine ⟨?_, ?_, ?_⟩
    · intro s hs hne
      have hval : (generate_vibe_music ⟨stats, sw, ctx, pm, dec, wea, some b⟩).1.environmentSummary
          = if falsyOptStr b.environmentSummary then some (summarise_environment stats)
            else b.environmentSummary := rfl
      rw [hval, hs, falsyOptStr_false s hne]
      simp
    · intro s hs hne
      have hval : (generate_vibe_music ⟨stats, sw, ctx, pm, dec, wea, some b⟩).1.weatherSummary
          = if falsyOptStr b.weatherSummary then summarise_weather wea
            else b.weatherSummary := rfl
      rw [hval, hs, falsyOptStr_false s hne]
      simp
    · intro hne
      have hval : (generate_vibe_music ⟨stats, sw, ctx, pm, dec, wea, some b⟩).1.moodKeywords
          = if b.moodKeywords = [] then [b.vibeLabel, b.style] else b.moodKeywords := rfl
      rw [hval, if_neg hne]

def briefCustom : CreativeMusicBrief := { briefBase with environmentSummary := some "custom" }

def reqC8w : VibeRequest := { stats := statsZero, brief := some briefCustom }

/-- C8 witness: the amended theorem applied to an existing brief with
environmentSummary custom: the value survives refinement unchanged. -/
theorem C8_witness : (generate_vibe_music reqC8w).1.environmentSummary = some "custom" :=
  (C8_refinement_preserves reqC8w briefCustom rfl).1 "custom" rfl (by decide)

/-! Claim C9: totality and the unknown-indicator fallback. -/

/-- C9: the resolver is embedded as a total computable function, so it
returns a brief for every well-typed request and never raises; malformed
categorical values fall through to defaults — with no existing brief, no
truthy promptMetadata style and no decision, a styleIndicator outside the
fixed indicator table resolves to the style chill. -/
theorem C9_unknown_indicator_chill (req : VibeRequest) (hb : req.brief = none)
    (hs : truthyStr (req.promptMetadata.bind fun p => p.style) = none)
    (hd : req.decision = none)
    (hi : STYLE_BY_INDICATOR req.stats.styleIndicator = none) :
    (generate_vibe_music req).1.style = "chill" := by
  obtain ⟨stats, sw, ctx, pm, dec, wea, brief⟩ := req
  cases brief with
  | some b => exact Option.noConfusion hb
  | none =>
    cases dec with
    | some d => exact Option.noConfusion hd
    | none =>
      have hs2 : truthyStr (Option.bind pm fun p => p.style) = none := hs
      have hi2 : STYLE_BY_INDICATOR stats.styleIndicator = none := hi
      have hpre : base_style_pre stats pm none = "chill" := by
        unfold base_style_pre
        rw [hs2, hi2]
        rfl
      have hgoal : (generate_vibe_music ⟨stats, sw, ctx, pm, none, wea, none⟩).1.style
          = base_style stats pm none := rfl
      rw [hgoal]
      unfold base_style
      rw [hpre]
      have hnc : ¬((stats.lightingPattern = "strobe" ∨ stats.lightingPattern = "dynamic")
          ∧ ("chill" : String) = "upbeat") := by
        rintro ⟨-, h⟩
        exact absurd h (by decide)
      rw [if_neg hnc]

def statsUnknown : RoomStatsAPI := { statsZero with styleIndicator := "unrecognized-value" }

def reqC9w : VibeRequest := { stats := statsUnknown }

/-- C9 witness: the theorem applied at the concrete indicator
unrecognized-value. -/
theorem C9_witness : (generate_vibe_music reqC9w).1.style = "chill" :=
  C9_unknown_indicator_chill reqC9w rfl rfl rfl rfl

/-! Claim C10: the override also applies to caller-supplied styles. -/

/-- C10: with no existing brief and a truthy promptMetadata style, the
strobe/dynamic-lighting override still applies when that style is upbeat
(the caller's explicit choice is not final), while any caller style other
than upbeat is used verbatim. -/
theorem C10_caller_style (req : VibeRequest) (hb : req.brief = none) :
    ∀ s, truthyStr (req.promptMetadata.bind fun p => p.style) = some s →
      ((s = "upbeat" →
        (req.stats.lightingPattern = "strobe" ∨ req.stats.lightingPattern = "dynamic") →
        (generate_vibe_music req).1.style = "electronic") ∧
      (s ≠ "upbeat" → (generate_vibe_music req).1.style = s)) := by
  obtain ⟨stats, sw, ctx, pm, dec, wea, brief⟩ := req
  cases brief with
  | some b => exact Option.noConfusion hb
  | none =>
    intro s hs
    have hs2 : truthyStr (Option.bind pm fun p => p.style) = some s := hs
    have hpre : base_style_pre stats pm dec = s := by
      unfold base_style_pre
      rw [hs2]
    have hgoal : (generate_vibe_music ⟨stats, sw, ctx, pm, dec, wea, none⟩).1.style
        = base_style stats pm dec := rfl
    constructor
    · intro hup hl
      have hl2 : stats.lightingPattern = "strobe" ∨ stats.lightingPattern = "dynamic" := hl
      rw [hgoal]
      unfold base_style
      rw [hpre, hup, if_pos ⟨hl2, rfl⟩]
    · intro hne
      rw [hgoal]
      unfold base_style
      rw [hpre]
      have hnc : ¬((stats.lightingPattern = "strobe" ∨ stats.lightingPattern = "dynamic")
          ∧ s = "upbeat") := fun h => hne h.2
      rw [if_neg hnc]

def statsStrobe : RoomStatsAPI := { statsZero with lightingPattern := "strobe" }

def pmUpbeat : PromptMetadata := { style := some "upbeat" }

def reqC10w : VibeRequest := { stats := statsStrobe, promptMetadata := some pmUpbeat }

/-- C10 witness: the theorem applied at a request with caller style
upbeat and strobe lighting: the resolved style is electronic. -/
theorem C10_witness : (generate_vibe_music reqC10w).1.style = "electronic" :=
  ((C10_caller_style reqC10w rfl) "upbeat" rfl).1 rfl (Or.inl rfl)

end Vibe
